import Mathlib

/-!
Verification of the industrial marking system (PLC fieldbus interface and
TCP message server) against its natural-language specification.

The Python sources are shallowly embedded:
  - bytes are modelled as `List Nat` (each entry a byte value 0..255);
  - the fieldbus transport is an explicit function from the request bytes
    to an optional response (`none` models a receive timeout or a socket
    error, both of which the source catches and turns into a failure value);
  - exceptions that the source catches at an operation boundary are
    modelled by `Option`: `none` where the Python returns `None`/`False`
    after logging;
  - `struct.pack` is modelled faithfully, including the arity check that
    Python performs before packing (a mismatch raises `struct.error`).
-/

namespace PLC

/-- Items of a Python struct format string: `H` is a big-endian unsigned
16-bit field, `B` an unsigned byte. -/
inductive FmtItem where
  | H : FmtItem
  | B : FmtItem
  deriving DecidableEq, Repr

/-- Pack one value according to one format item, as Python struct does:
out-of-range values raise `struct.error`, modelled as `none`. -/
def packItem (f : FmtItem) (v : Nat) : Option (List Nat) :=
  match f with
  | .H => if v < 65536 then some [v / 256, v % 256] else none
  | .B => if v < 256 then some [v] else none

/-- Pack a list of values item by item (assumes the arity check passed). -/
def packItems : List FmtItem → List Nat → Option (List Nat)
  | [], [] => some []
  | f :: fs, v :: vs =>
      match packItem f v, packItems fs vs with
      | some b, some rest => some (b ++ rest)
      | _, _ => none
  | _, _ => none

/-- Python `struct.pack`: it first checks that the number of arguments
matches the number of format items (raising
`struct.error: pack expected N items` otherwise, modelled `none`),
then packs the values. -/
def structPack (fmt : List FmtItem) (args : List Nat) : Option (List Nat) :=
  if args.length = fmt.length then packItems fmt args else none

/-- The format string used by `_build_modbus_request` in
`plc_interface.py`: the literal `'>HHHBBBHH'` (eight items). -/
def fmtHHHBBBHH : List FmtItem :=
  [.H, .H, .H, .B, .B, .B, .H, .H]

/-- `PLCInterface._build_modbus_request` (plc_interface.py lines 176-199):
transaction id 1, protocol id 0, length 6, configured unit id, then the
function code, starting address and quantity/value, packed with
`struct.pack('>HHHBBBHH', ...)` and exactly seven values. -/
def build_modbus_request (unit_id function_code address value : Nat) :
    Option (List Nat) :=
  structPack fmtHHHBBBHH
    [1, 0, 6, unit_id, function_code, address, value]

/-- The packing the spec describes: the same seven fields laid out as
2-byte transaction id, 2-byte protocol id, 2-byte length, 1-byte unit id,
1-byte function code, 2-byte address, 2-byte quantity (12 bytes).
Modelled from the spec for comparison with `build_modbus_request`. -/
def specFrame (unit_id function_code address value : Nat) :
    Option (List Nat) :=
  structPack [.H, .H, .H, .B, .B, .H, .H]
    [1, 0, 6, unit_id, function_code, address, value]

/-- `PLCInterface._parse_discrete_response` (lines 201-210) combined with
the exception handling of its caller: responses shorter than 9 bytes give
`None`; otherwise the code reads `response[9]`, which raises `IndexError`
when the response is exactly 9 bytes long (the caller catches it and
returns `None`, modelled here by the `none` of `List.get?`). -/
def parse_discrete_response (response : List Nat) : Option Bool :=
  if response.length < 9 then none
  else
    match response.get? 9 with
    | none => none
    | some data_byte => some (data_byte % 2 = 1)

/-- A fieldbus transport: maps the request bytes that are sent to the
response bytes received, `none` modelling a receive timeout or socket
error (caught by the source and logged). -/
abbrev Transport : Type := List Nat → Option (List Nat)

/-- `PLCInterface.read_discrete_input` (lines 105-124): returns `None`
when disconnected; otherwise builds a function-2 request, sends it,
receives, and parses. Any exception inside the `try` block (including the
`struct.error` from building the request) is caught and yields `None`. -/
def read_discrete_input (conn : Bool) (env : Transport) (unit_id address : Nat) :
    Option Bool :=
  if conn = false then none
  else
    match build_modbus_request unit_id 2 address 1 with
    | none => none
    | some request =>
      match env request with
      | none => none
      | some response => parse_discrete_response response

/-- `PLCInterface.write_discrete_output` (lines 126-146): returns `False`
when disconnected; otherwise builds a function-5 request with coil value
0xFF00 or 0x0000, sends, receives, and treats a non-empty response as
success. Exceptions inside the `try` give `False`. -/
def write_discrete_output (conn : Bool) (env : Transport)
    (unit_id address : Nat) (value : Bool) : Bool :=
  if conn = false then false
  else
    match build_modbus_request unit_id 5 address (if value then 65280 else 0) with
    | none => false
    | some request =>
      match env request with
      | none => false
      | some response => response.length > 0

/-- Python truthiness of the `Optional[bool]` results used in
`execute_marking_sequence`: `None` and `False` are falsy. -/
def truthy : Option Bool → Bool
  | some true => true
  | _ => false

/-- The await-complete poll of `execute_marking_sequence` (lines 278-287):
poll the marking-complete input (address 3) every 100 ms until it is
truthy or the 10 s deadline passes; the deadline allows about 100 polls
(time is abstracted to the iteration count). Returns `true` when the loop
exited via `break` (marking complete seen) and `false` on the deadline. -/
def pollMarkingComplete (conn : Bool) (env : Transport) (unit_id : Nat) :
    Nat → Bool
  | 0 => false
  | fuel + 1 =>
      if truthy (read_discrete_input conn env unit_id 3) then true
      else pollMarkingComplete conn env unit_id fuel

/-- `PLCInterface.execute_marking_sequence` (lines 256-300). The second
component of the result is the trace of `write_discrete_output` calls the
run performs, as (address, value) pairs in call order. Prechecks read
product-present (address 0) and system-ready (address 1) and abort with
no writes when falsy; then marking-start and status-LED are written; the
poll loop runs with a 10 s deadline (about 100 polls at 100 ms); on the
deadline the error indicator (address 2) is written and the run fails; on
completion cycle-complete (address 3) is pulsed true then false. The
reads and writes catch their own exceptions, so the outer `except` branch
of the Python (which would also write the error indicator) is
unreachable and has no counterpart here. -/
def execute_marking_sequence (conn : Bool) (env : Transport) (unit_id : Nat) :
    Bool × List (Nat × Bool) :=
  if truthy (read_discrete_input conn env unit_id 0) then
    if truthy (read_discrete_input conn env unit_id 1) then
      let startWrites : List (Nat × Bool) := [(0, true), (1, true)]
      if pollMarkingComplete conn env unit_id 100 then
        (true, startWrites ++ [(3, true), (3, false)])
      else
        (false, startWrites ++ [(2, true)])
    else (false, [])
  else (false, [])

/-- Result of `get_system_status` (lines 230-254): either the exact
one-key document returned when disconnected, or the connected snapshot
listing every discrete input by description with its read result. The
analog part stores the raw register read; the configured scale/offset
default to the identity. -/
inductive PlcStatus where
  | disconnected
  | connected (discreteInputs : List (String × Option Bool))
      (analogInputs : List (String × Option Nat))
  deriving DecidableEq, Repr

/-- `PLCInterface._parse_register_response` (lines 212-221): responses
shorter than 11 bytes give `None`; otherwise the big-endian 16-bit value
at bytes 9-10. -/
def parse_register_response (response : List Nat) : Option Nat :=
  if response.length < 11 then none
  else
    match response.get? 9, response.get? 10 with
    | some hi, some lo => some (hi * 256 + lo)
    | _, _ => none

/-- `PLCInterface.read_analog_input` (lines 148-174), with the default
identity scale and offset: build a function-4 request, send, receive,
parse the register. Exceptions give `None`. -/
def read_analog_input (conn : Bool) (env : Transport) (unit_id address : Nat) :
    Option Nat :=
  if conn = false then none
  else
    match build_modbus_request unit_id 4 address 1 with
    | none => none
    | some request =>
      match env request with
      | none => none
      | some response => parse_register_response response

/-- `PLCInterface.get_system_status` (lines 230-254), paired with the
trace of read calls it performs (the addresses passed to
`read_discrete_input` then to `read_analog_input`, in call order). When
disconnected it returns the one-key document and performs no reads;
otherwise it reads the four discrete inputs 0..3 and the two analog
inputs 0..1 that the constructor registers. -/
def get_system_status (conn : Bool) (env : Transport) (unit_id : Nat) :
    PlcStatus × List Nat :=
  if conn = false then (.disconnected, [])
  else
    (.connected
      [("Product Present Sensor", read_discrete_input conn env unit_id 0),
       ("System Ready", read_discrete_input conn env unit_id 1),
       ("Emergency Stop", read_discrete_input conn env unit_id 2),
       ("Marking Complete", read_discrete_input conn env unit_id 3)]
      [("Line Speed", read_analog_input conn env unit_id 0),
       ("Print Quality Sensor", read_analog_input conn env unit_id 1)],
     [0, 1, 2, 3, 0, 1])

end PLC

namespace TCP

/-- JSON-style values as they appear inside a message payload. Objects
keep their fields as an association list (keys are unique in a Python
dict). -/
inductive JVal where
  | null
  | bool (b : Bool)
  | num (n : Int)
  | str (s : String)
  | obj (fields : List (String × JVal))
  | arr (xs : List JVal)

/-- A JSON object, the shape of a message payload. -/
abbrev JObj : Type := List (String × JVal)

/-- Python `dict.get(key)` on a JSON object: `none` models the `None`
default. -/
def jGet (o : JObj) (key : String) : Option JVal :=
  match o.find? (fun kv => kv.1 = key) with
  | some kv => some kv.2
  | none => none

/-- Python truthiness of a JSON value: `None`, `False`, `0`, the empty
string, the empty dict and the empty list are falsy. -/
def jTruthy : JVal → Bool
  | .null => false
  | .bool b => b
  | .num n => decide (n ≠ 0)
  | .str s => decide (s ≠ "")
  | .obj [] => false
  | .obj (_ :: _) => true
  | .arr [] => false
  | .arr (_ :: _) => true

/-- The `NetworkMessage` dataclass (tcp_server.py lines 16-22): message
id, ISO timestamp, message type, payload document and the server-set
client id (defaulting to the empty string). -/
structure NetworkMessage where
  message_id : String
  timestamp : String
  message_type : String
  payload : JObj
  client_id : String := ""

/-- The mutable server statistics that the built-in handlers read and
update (the `system_status` dict of lines 40-47, restricted to the
fields any handler touches). -/
structure ServerState where
  marksCompleted : Nat
  errorCount : Nat
  lastUpdate : String
  deriving DecidableEq, Repr

/-- `MarkingSystemTCPServer._create_error_response` (lines 287-296):
standardized error message with id `error_<requestId>` and type
`error_response`. -/
def create_error_response (request_id : String) (nowIso : String)
    (error_message : String) : NetworkMessage :=
  { message_id := "error_" ++ request_id
    timestamp := nowIso
    message_type := "error_response"
    payload := [("error", .str error_message)] }

/-- `_handle_status_request` (lines 177-192). The payload snapshots the
system status; `system_status` never holds a `start_time` key, so the
`get` default makes the reported uptime `now - now = 0`. -/
def handle_status_request (st : ServerState) (nowIso : String)
    (clientCount : Nat) (m : NetworkMessage) : NetworkMessage × ServerState :=
  ({ message_id := "response_" ++ m.message_id
     timestamp := nowIso
     message_type := "status_response"
     payload :=
       [("system_status", .obj
          [("controller_status", .str "ready"),
           ("hardware_connected", .bool true),
           ("marks_completed", .num st.marksCompleted),
           ("error_count", .num st.errorCount),
           ("uptime", .num 0),
           ("last_update", .str st.lastUpdate)]),
        ("client_count", .num clientCount),
        ("server_uptime", .num 0)] },
   st)

/-- The validation of `_handle_marking_request` (lines 199-206): the
payload key `product_data` (defaulting to the empty dict) must be a dict
whose `serial_number` entry is truthy. A non-dict `product_data` makes
`.get` raise, which the handler catches, so it also fails validation. -/
def markingValid (payload : JObj) : Bool :=
  match (jGet payload "product_data").getD (.obj []) with
  | .obj pd => jTruthy ((jGet pd "serial_number").getD .null)
  | _ => false

/-- `_handle_marking_request` (lines 194-228). Returns the response, the
updated state, and the trace of fieldbus writes the handler performs as
(address, value) pairs: the source handler only simulates the marking
operation and never calls the PLC interface, so that trace is empty on
every path. Missing or falsy `serial_number` gives the standardized
error response and leaves the state untouched; otherwise the
completed-marks counter is incremented and `last_update` refreshed. A
non-dict `product_data` raises inside the `try` and is returned as an
error response by the `except` branch. -/
def handle_marking_request (st : ServerState) (now : Nat) (nowIso : String)
    (m : NetworkMessage) : NetworkMessage × ServerState × List (Nat × Bool) :=
  match (jGet m.payload "product_data").getD (.obj []) with
  | .obj pd =>
      if jTruthy ((jGet pd "serial_number").getD .null) = false then
        (create_error_response m.message_id nowIso
           "Missing required field: serial_number", st, [])
      else
        ({ message_id := "response_" ++ m.message_id
           timestamp := nowIso
           message_type := "marking_response"
           payload :=
             [("success", .bool true),
              ("mark_id", .str ("mark_" ++ toString now)),
              ("completion_time", .str nowIso),
              ("product_data", .obj pd)] },
         { st with marksCompleted := st.marksCompleted + 1,
                   lastUpdate := nowIso },
         [])
  | _ =>
      -- product_data is not a dict: `.get` raises AttributeError, the
      -- except branch converts str(e) into an error response.
      (create_error_response m.message_id nowIso "AttributeError", st, [])

/-- `_handle_configuration_update` (lines 230-249): acknowledges any
configuration document. -/
def handle_configuration_update (st : ServerState) (nowIso : String)
    (m : NetworkMessage) : NetworkMessage × ServerState :=
  ({ message_id := "response_" ++ m.message_id
     timestamp := nowIso
     message_type := "configuration_response"
     payload := [("success", .bool true),
                 ("message", .str "Configuration updated")] },
   st)

/-- `_handle_system_command` (lines 251-274): `reset_statistics` zeroes
the counters, `shutdown` schedules a stop (a timing side effect outside
this state model), anything else is ignored; the response always echoes
the command (or null when the key is missing). -/
def handle_system_command (st : ServerState) (nowIso : String)
    (m : NetworkMessage) : NetworkMessage × ServerState :=
  let command := jGet m.payload "command"
  let st' :=
    match command with
    | some (.str s) =>
        if s = "reset_statistics" then
          { st with marksCompleted := 0, errorCount := 0 }
        else st
    | _ => st
  ({ message_id := "response_" ++ m.message_id
     timestamp := nowIso
     message_type := "command_response"
     payload := [("success", .bool true),
                 ("command", command.getD .null)] },
   st')

/-- `_handle_heartbeat` (lines 276-285): echoes the server time. -/
def handle_heartbeat (st : ServerState) (nowIso : String)
    (m : NetworkMessage) : NetworkMessage × ServerState :=
  ({ message_id := "response_" ++ m.message_id
     timestamp := nowIso
     message_type := "heartbeat_response"
     payload := [("server_time", .str nowIso)] },
   st)

/-- The routing step of `_process_message` (lines 158-170) over the five
default handlers registered in `_register_default_handlers` (lines
52-60): a registered type is dispatched to its handler and the returned
message (always truthy) is sent; an unregistered type gets the
standardized unknown-type error response. Every routed message therefore
produces a response. -/
def routeMessage (st : ServerState) (now : Nat) (nowIso : String)
    (clientCount : Nat) (m : NetworkMessage) : NetworkMessage × ServerState :=
  if m.message_type = "status_request" then
    handle_status_request st nowIso clientCount m
  else if m.message_type = "marking_request" then
    let r := handle_marking_request st now nowIso m
    (r.1, r.2.1)
  else if m.message_type = "configuration_update" then
    handle_configuration_update st nowIso m
  else if m.message_type = "system_command" then
    handle_system_command st nowIso m
  else if m.message_type = "heartbeat" then
    handle_heartbeat st nowIso m
  else
    (create_error_response m.message_id nowIso
       ("Unknown message type: " ++ m.message_type), st)

/-- The encoder of `_send_response` (lines 298-309): `asdict(response)`
turns a `NetworkMessage` into the five-key document that is then
serialized as one JSON line. The JSON text layer is left to the json
library (`json.dumps`/`json.loads` are mutually inverse on these
documents and `dumps` never emits a raw newline, which is what the
newline framing of the wire protocol relies on); the model works at the
parsed-document level. -/
def encodeMessage (m : NetworkMessage) : JObj :=
  [("message_id", .str m.message_id),
   ("timestamp", .str m.timestamp),
   ("message_type", .str m.message_type),
   ("payload", .obj m.payload),
   ("client_id", .str m.client_id)]

/-- The decoder of `_process_message` (lines 152-153):
`NetworkMessage(**message_dict)` fails with `TypeError` when a required
field (`message_id`, `timestamp`, `message_type`, `payload`) is missing
or an unexpected key is present; `client_id` is optional and defaults to
the empty string. Fields carry the types of the dataclass annotations
(string envelope fields, document payload). -/
def decodeMessage (d : JObj) : Option NetworkMessage :=
  if d.all (fun kv =>
      ["message_id", "timestamp", "message_type", "payload",
       "client_id"].contains kv.1) then
    match jGet d "message_id", jGet d "timestamp",
          jGet d "message_type", jGet d "payload" with
    | some (.str mid), some (.str ts), some (.str mt), some (.obj p) =>
        match jGet d "client_id" with
        | none =>
            some { message_id := mid, timestamp := ts, message_type := mt,
                   payload := p, client_id := "" }
        | some (.str c) =>
            some { message_id := mid, timestamp := ts, message_type := mt,
                   payload := p, client_id := c }
        | some _ => none
    | _, _, _, _ => none
  else none

/-- `_process_message` (lines 146-175) on one received line. The input
is `none` when the line is not valid JSON (`json.JSONDecodeError`); a
parsed document that does not form a valid envelope raises `TypeError`,
caught by the generic `except`. Both failure paths only log: no response
is produced and the state is unchanged. A decoded message has its
`client_id` overwritten with the connection identity and is then routed. -/
def processLine (st : ServerState) (now : Nat) (nowIso : String)
    (clientCount : Nat) (line : Option JObj) (cid : String) :
    Option NetworkMessage × ServerState :=
  match line with
  | none => (none, st)
  | some d =>
    match decodeMessage d with
    | none => (none, st)
    | some m =>
      let r := routeMessage st now nowIso clientCount { m with client_id := cid }
      (some r.1, r.2)

/-- A tracked client connection for the broadcast model: its identity
and whether a send on its socket succeeds. -/
abbrev Client : Type := String × Bool

/-- `broadcast_message` (lines 311-327): iterate over the tracked
connections in order, sending to each; collect the connections whose
send raised; afterwards remove every collected connection from the
tracked set. Returns the identities the message was delivered to (in
iteration order) and the tracked set after cleanup. -/
def broadcast_message (clients : List Client) : List String × List Client :=
  let delivered := (clients.filter (fun c => c.2)).map (fun c => c.1)
  let disconnected := (clients.filter (fun c => !c.2)).map (fun c => c.1)
  (delivered, clients.filter (fun c => !(disconnected.contains c.1)))

/-- One iteration of `_monitor_system` (lines 341-366): the status
broadcast runs only when at least one connection is tracked (`if
self.clients:`); with zero tracked connections the broadcast is skipped
(`none`). -/
def monitor_step (clients : List Client) :
    Option (List String × List Client) :=
  if clients.isEmpty then none else some (broadcast_message clients)

end TCP

namespace PLC

/-- The layout the spec describes does produce a 12-byte frame when the
fields are in range: the seven-field pack with a single unit-id byte. -/
theorem specFrame_is_twelve_bytes :
    ∃ frame, specFrame 1 2 0 1 = some frame ∧ frame.length = 12 := by
  refine ⟨[0, 1, 0, 0, 0, 6, 1, 2, 0, 0, 0, 1], ?_, ?_⟩ <;> rfl

/-- A transport that answers every request with a 10-byte response whose
data byte (index 9, the one `_parse_discrete_response` reads) has its
low bit set. -/
def envDataBitSet : Transport := fun _ => some [0, 0, 0, 0, 0, 0, 0, 0, 0, 1]

/-- A transport for the marking-sequence scenario: it would answer the
marking-complete read (address 3, carried in the request byte at index
9 of the intended 12-byte frame) with data bit 0, and every other read
with data bit 1 — product present and system ready, marking never
complete. -/
def envMarkingNeverDone : Transport := fun req =>
  if req.getD 9 0 = 3 then some [0, 0, 0, 0, 0, 0, 0, 0, 0, 0]
  else some [0, 0, 0, 0, 0, 0, 0, 0, 0, 1]

/-- A dead transport: every receive times out. -/
def envSilent : Transport := fun _ => none

end PLC

/-- C1: the claim says every request frame built by
`_build_modbus_request` is the 12-byte frame (transaction id, protocol
id 0, length, unit id, function code, address, quantity). In the source
the pack format `'>HHHBBBHH'` has eight items while only seven values
are supplied, so `struct.pack` raises `struct.error` on every call and
no frame is ever produced — the code contradicts the layout its own
comments and length field (6) describe. -/
theorem claim_C1_build_request_never_produces_frame
    (unit_id function_code address value : Nat) :
    PLC.build_modbus_request unit_id function_code address value = none := rfl

/-- C6: the claim says that with marking-complete never true the
sequence fails after about 10 s of polling with exactly one
error-indicator write. On this transport (product present and system
ready would read true, marking complete never true) the run instead
returns failure immediately with an empty write trace: every discrete
read fails up front because `_build_modbus_request` raises
`struct.error`, so the precheck aborts and the poll loop and its
error-indicator write are never reached. -/
theorem claim_C6_no_error_indicator_write_on_timeout_scenario :
    PLC.execute_marking_sequence true PLC.envMarkingNeverDone 1 = (false, []) := rfl

/-- C8: the claim says `read_discrete_input` returns a boolean for every
response meeting the 9-byte minimum and fails only when disconnected,
timed out, or the response is shorter than 9 bytes. On a connected link
whose transport answers with a valid 10-byte response the read still
returns `None` (the request build raises `struct.error` before anything
is sent); independently, `_parse_discrete_response` reads `response[9]`
after only checking `len < 9`, so an exactly-9-byte response raises
`IndexError` and also fails. -/
theorem claim_C8_read_fails_despite_valid_response :
    PLC.read_discrete_input true PLC.envDataBitSet 1 0 = none ∧
      PLC.parse_discrete_response [0, 0, 0, 0, 0, 0, 0, 0, 1] = none :=
  ⟨rfl, rfl⟩

/-- C10: when the fieldbus link is disconnected, `get_system_status`
returns exactly the one-key disconnected document and performs no
fieldbus reads at all. -/
theorem claim_C10_disconnected_status (env : PLC.Transport) (unit_id : Nat) :
    PLC.get_system_status false env unit_id = (.disconnected, []) := rfl

/-- C4: decoding the encoded form of any message gives back the same
message: `NetworkMessage(**json.loads(json.dumps(asdict(M))))` restores
every field of `M` (the document level of the codec; the json text layer
is the inverse pair of the json library). -/
theorem claim_C4_decode_encode_roundtrip (m : TCP.NetworkMessage) :
    TCP.decodeMessage (TCP.encodeMessage m) = some m := rfl

/-- Shared correlation fact: every routed message produces a response
whose id is `error_<requestId>` exactly when the response is the
standardized error response, and `response_<requestId>` otherwise, for
all five built-in handlers and the unknown-type path. -/
theorem route_id_by_response_type (st : TCP.ServerState) (now : Nat)
    (nowIso : String) (clientCount : Nat) (m : TCP.NetworkMessage) :
    (TCP.routeMessage st now nowIso clientCount m).1.message_id =
      (if (TCP.routeMessage st now nowIso clientCount m).1.message_type =
          "error_response"
       then "error_" else "response_") ++ m.message_id := by
  unfold TCP.routeMessage TCP.handle_status_request TCP.handle_marking_request
    TCP.handle_configuration_update TCP.handle_system_command
    TCP.handle_heartbeat TCP.create_error_response
  repeat' split <;> try simp_all

/-- C2: for every inbound request with id r, the routed response carries
id `response_<r>` when the handler succeeds and `error_<r>` when it
fails (the failure responses are exactly those of type
`error_response`), across the five built-in handlers and the
unknown-type path. -/
theorem claim_C2_response_id_correlation (st : TCP.ServerState) (now : Nat)
    (nowIso : String) (clientCount : Nat) (m : TCP.NetworkMessage) :
    (TCP.routeMessage st now nowIso clientCount m).1.message_id =
      (if (TCP.routeMessage st now nowIso clientCount m).1.message_type =
          "error_response"
       then "error_" else "response_") ++ m.message_id :=
  route_id_by_response_type st now nowIso clientCount m

/-- C3 counterexample: the claim says every received line — including
malformed JSON and envelopes missing required fields — gets a success or
error response. In the source, `json.JSONDecodeError` and the
`TypeError` from `NetworkMessage(**d)` are only logged: the first
component below is the response produced for a non-JSON line, the
second for a document carrying only `message_id`; both are `none`, a
silent drop. -/
theorem claim_C3_counterexample :
    (TCP.processLine ⟨0, 0, ""⟩ 0 "T" 0 none "client_1").1 = none ∧
      (TCP.processLine ⟨0, 0, ""⟩ 0 "T" 0
        (some [("message_id", .str "req1")]) "client_1").1 = none :=
  ⟨rfl, rfl⟩

/-- C3 amended: every received line that parses as JSON and forms a
valid message envelope gets a response on the same connection,
correlated to the request id as `response_<r>` or `error_<r>`; lines
with malformed JSON or an envelope missing required fields are logged
and dropped without a response. -/
theorem claim_C3_amended_decodable_lines_answered (st : TCP.ServerState)
    (now : Nat) (nowIso : String) (clientCount : Nat) (d : TCP.JObj)
    (m : TCP.NetworkMessage) (cid : String)
    (h : TCP.decodeMessage d = some m) :
    ∃ resp,
      (TCP.processLine st now nowIso clientCount (some d) cid).1 = some resp ∧
        resp.message_id =
          (if resp.message_type = "error_response"
           then "error_" else "response_") ++ m.message_id := by
  refine ⟨(TCP.routeMessage st now nowIso clientCount
    { m with client_id := cid }).1, ?_, ?_⟩
  · simp [TCP.processLine, h]
  · exact route_id_by_response_type st now nowIso clientCount
      { m with client_id := cid }

/-- A concrete heartbeat document and the message it decodes to, used to
instantiate the amended C3 statement. -/
def dHeartbeat : TCP.JObj :=
  [("message_id", .str "req1"), ("timestamp", .str "T"),
   ("message_type", .str "heartbeat"), ("payload", .obj [])]

/-- The decoded form of `dHeartbeat`. -/
def mHeartbeat : TCP.NetworkMessage :=
  { message_id := "req1", timestamp := "T", message_type := "heartbeat",
    payload := [] }

/-- Witness for the amended C3 statement at a concrete heartbeat line. -/
theorem claim_C3_amended_witness :
    TCP.decodeMessage dHeartbeat = some mHeartbeat ∧
      ∃ resp,
        (TCP.processLine ⟨0, 0, ""⟩ 0 "T" 0 (some dHeartbeat) "client_1").1 =
            some resp ∧
          resp.message_id =
            (if resp.message_type = "error_response"
             then "error_" else "response_") ++ mHeartbeat.message_id :=
  ⟨rfl, claim_C3_amended_decodable_lines_answered ⟨0, 0, ""⟩ 0 "T" 0
    dHeartbeat mHeartbeat "client_1" rfl⟩

/-- C5: a marking request whose payload fails the serial-number
validation gets the standardized error response `error_<requestId>`,
leaves the completed-marks counter unchanged, and performs no fieldbus
writes. -/
theorem claim_C5_missing_serial_no_side_effects (st : TCP.ServerState)
    (now : Nat) (nowIso : String) (m : TCP.NetworkMessage)
    (h : TCP.markingValid m.payload = false) :
    (TCP.handle_marking_request st now nowIso m).1.message_id =
        "error_" ++ m.message_id ∧
      (TCP.handle_marking_request st now nowIso m).2.1.marksCompleted =
        st.marksCompleted ∧
      (TCP.handle_marking_request st now nowIso m).2.2 = [] := by
  unfold TCP.markingValid at h
  unfold TCP.handle_marking_request
  rcases hpd : (TCP.jGet m.payload "product_data").getD (.obj []) with
    _ | _ | _ | _ | pd | xs <;> rw [hpd] at h <;>
    simp_all [TCP.create_error_response]

/-- A marking request whose payload has no product data at all. -/
def mMissingSerial : TCP.NetworkMessage :=
  { message_id := "req1", timestamp := "T",
    message_type := "marking_request", payload := [] }

/-- Witness for C5: the concrete request above fails validation, is
answered with `error_req1`, and leaves the counter at its old value. -/
theorem claim_C5_witness :
    TCP.markingValid mMissingSerial.payload = false ∧
      ((TCP.handle_marking_request ⟨7, 0, "U"⟩ 5 "T" mMissingSerial).1.message_id =
          "error_" ++ "req1" ∧
        (TCP.handle_marking_request ⟨7, 0, "U"⟩ 5 "T" mMissingSerial).2.1.marksCompleted = 7 ∧
        (TCP.handle_marking_request ⟨7, 0, "U"⟩ 5 "T" mMissingSerial).2.2 = []) :=
  ⟨rfl, claim_C5_missing_serial_no_side_effects ⟨7, 0, "U"⟩ 5 "T"
    mMissingSerial rfl⟩

/-- C7: when the product-present precheck (address 0) or the
system-ready precheck (address 1) does not read true, the marking
sequence returns failure with an empty write trace: none of
marking-start, status-LED, error-indicator or cycle-complete is
written. The hypothesis uses the truthiness the source applies (`if not
product_present`), which treats a failed read and a false reading the
same way. -/
theorem claim_C7_precheck_abort_without_writes (conn : Bool)
    (env : PLC.Transport) (unit_id : Nat)
    (h : PLC.truthy (PLC.read_discrete_input conn env unit_id 0) = false ∨
         PLC.truthy (PLC.read_discrete_input conn env unit_id 1) = false) :
    PLC.execute_marking_sequence conn env unit_id = (false, []) := by
  unfold PLC.execute_marking_sequence
  rcases h with h | h
  · simp [h]
  · cases h0 : PLC.truthy (PLC.read_discrete_input conn env unit_id 0) <;>
      simp [h0, h]

/-- Witness for C7 on a disconnected link, where the product-present
read yields no value. -/
theorem claim_C7_witness :
    (PLC.truthy (PLC.read_discrete_input false PLC.envSilent 1 0) = false ∨
      PLC.truthy (PLC.read_discrete_input false PLC.envSilent 1 1) = false) ∧
      PLC.execute_marking_sequence false PLC.envSilent 1 = (false, []) :=
  ⟨Or.inl rfl,
    claim_C7_precheck_abort_without_writes false PLC.envSilent 1 (Or.inl rfl)⟩

/-- C9: broadcasting to a tracked set in which exactly one connection
fails still delivers to all the others (in iteration order), and the
cleanup removes exactly the failing connection from the tracked set;
the periodic monitor skips the broadcast entirely when no connections
are tracked. The identities of the other connections differ from the
failing one, as they do in the `clients` dict of the source. -/
theorem claim_C9_broadcast_failure_isolated (l₁ l₂ : List TCP.Client)
    (cid : String)
    (h1 : ∀ c ∈ l₁, c.2 = true) (h2 : ∀ c ∈ l₂, c.2 = true)
    (hid : ∀ c ∈ l₁ ++ l₂, c.1 ≠ cid) :
    TCP.broadcast_message (l₁ ++ (cid, false) :: l₂) =
        ((l₁ ++ l₂).map (fun c => c.1), l₁ ++ l₂) ∧
      TCP.monitor_step [] = none := by
  refine ⟨?_, rfl⟩
  have hf1 : l₁.filter (fun c => c.2) = l₁ := List.filter_eq_self.mpr h1
  have hf2 : l₂.filter (fun c => c.2) = l₂ := List.filter_eq_self.mpr h2
  have hn1 : l₁.filter (fun c => !c.2) = [] := by
    rw [List.filter_eq_nil_iff]
    intro c hc
    simp [h1 c hc]
  have hn2 : l₂.filter (fun c => !c.2) = [] := by
    rw [List.filter_eq_nil_iff]
    intro c hc
    simp [h2 c hc]
  have k1 : l₁.filter (fun c => !decide (c.1 = cid)) = l₁ := by
    rw [List.filter_eq_self]
    intro c hc
    simp [hid c (List.mem_append_left _ hc)]
  have k2 : l₂.filter (fun c => !decide (c.1 = cid)) = l₂ := by
    rw [List.filter_eq_self]
    intro c hc
    simp [hid c (List.mem_append_right _ hc)]
  simp [TCP.broadcast_message, List.filter_append, List.filter_cons,
    hf1, hf2, hn1, hn2, k1, k2]

/-- Witness for C9 with three tracked connections of which the middle
one fails: the other two still receive the message and only the failing
one is removed. -/
theorem claim_C9_witness :
    ((∀ c ∈ [(("a" : String), true)], c.2 = true) ∧
      (∀ c ∈ [(("c" : String), true)], c.2 = true) ∧
      (∀ c ∈ [(("a" : String), true)] ++ [(("c" : String), true)],
        c.1 ≠ "b")) ∧
      (TCP.broadcast_message ([("a", true)] ++ ("b", false) :: [("c", true)]) =
          (([("a", true), ("c", true)] : List TCP.Client).map (fun c => c.1),
            [("a", true), ("c", true)]) ∧
        TCP.monitor_step [] = none) :=
  ⟨⟨by decide, by decide, by decide⟩,
    claim_C9_broadcast_failure_isolated [("a", true)] [("c", true)] "b"
      (by decide) (by decide) (by decide)⟩

